import Mathlib

/-!
Verification development for the chat client in `frontend/src/App.js`.

The file shallowly embeds the event handlers of the `ChatRoom`,
`UsernameModal` and `App` components:

* the inbound socket handlers installed by the `ChatRoom` effect
  (lines 215-263 of `App.js`): `room_joined`, `new_message`,
  `user_joined`, `user_left`, `user_typing`;
* the outbound handlers `handleSendMessage` (lines 269-284),
  `handleTyping` (lines 286-309) and `handleLeaveRoom` (lines 311-316),
  together with the browser timer machinery (`setTimeout` /
  `clearTimeout` and the mutable `typingTimeoutRef`) that the typing
  debounce uses;
* `UsernameModal.handleSubmit` (lines 63-68) and the `join_room`
  emission of the mount effect (lines 218-221).

React state setters become explicit record updates, the timer becomes an
explicit multiset of live timeouts plus the ref cell holding the last
timeout id, and absent JSON fields become `Option`.  All definitions are
computable so that concrete traces evaluate by `decide` / `rfl`.
-/

namespace ChatApp

/-- A chat message as delivered by the server in a `new_message` event.
The client reads `username`, `message` and `timestamp` when rendering
(lines 353-371); `room_id` models the room the event is tagged for
(protocol table: messages belong to exactly one room) and is never
inspected by the client handler. -/
structure Message where
  room_id : String
  username : String
  message : String
  timestamp : Nat
deriving DecidableEq

/-- Payload of the inbound `room_joined` event.  `none` models an absent
JSON field (the code guards with `data.messages || []` and
`data.users || []`). -/
structure RoomJoinedData where
  messages : Option (List Message)
  users : Option (List String)
deriving DecidableEq

/-- Payload of the inbound `user_joined` / `user_left` events, a complete
membership snapshot; `none` models an absent `users` field. -/
structure UsersData where
  users : Option (List String)
deriving DecidableEq

/-- Payload of the inbound `user_typing` event. -/
structure TypingData where
  username : String
  is_typing : Bool
deriving DecidableEq

/-- JS `String.prototype.trim`: strip leading and trailing whitespace.
Written with structural `List.dropWhile` so that concrete inputs reduce
in the kernel. -/
def jsTrim (s : String) : String :=
  ⟨(((s.data.dropWhile Char.isWhitespace).reverse).dropWhile
      Char.isWhitespace).reverse⟩

/-- The React state of a mounted `ChatRoom` component: the `messages`,
`onlineUsers` and `typingUsers` `useState` hooks (lines 208-211). -/
structure ChatState where
  messages : List Message
  onlineUsers : List String
  typingUsers : List String
deriving DecidableEq

/-- Initial `ChatRoom` state: every `useState` starts at `[]`. -/
def initChatState : ChatState := ⟨[], [], []⟩

/-- `socket.on("room_joined", ...)`, lines 224-228:
`setMessages(data.messages || [])` and `setOnlineUsers(data.users || [])`. -/
def onRoomJoined (d : RoomJoinedData) (st : ChatState) : ChatState :=
  { st with messages := d.messages.getD [], onlineUsers := d.users.getD [] }

/-- `socket.on("new_message", ...)`, lines 231-234:
`setMessages(prev => [...prev, message])` — unconditional append, no
inspection of the message or of the current room. -/
def onNewMessage (m : Message) (st : ChatState) : ChatState :=
  { st with messages := st.messages ++ [m] }

/-- `socket.on("user_joined", ...)`, lines 237-239:
`setOnlineUsers(data.users || [])`. -/
def onUserJoined (d : UsersData) (st : ChatState) : ChatState :=
  { st with onlineUsers := d.users.getD [] }

/-- `socket.on("user_left", ...)`, lines 242-244:
`setOnlineUsers(data.users || [])`. -/
def onUserLeft (d : UsersData) (st : ChatState) : ChatState :=
  { st with onlineUsers := d.users.getD [] }

/-- `socket.on("user_typing", ...)`, lines 247-253: on `is_typing` the
username is filtered out of the list and re-appended at the end; on
`not is_typing` it is filtered out. -/
def onUserTyping (d : TypingData) (st : ChatState) : ChatState :=
  if d.is_typing then
    { st with typingUsers :=
        st.typingUsers.filter (fun u => u != d.username) ++ [d.username] }
  else
    { st with typingUsers := st.typingUsers.filter (fun u => u != d.username) }

/-- One event observable by the client session across mounts of
`ChatRoom`: `joinRoom` is the mount of a fresh `ChatRoom` for a room
(handlers attached, all `useState` hooks reset), `leaveRoom` its unmount
(the effect cleanup, lines 255-261, detaches all five handlers), and the
`ev_*` constructors are deliveries of inbound socket events. -/
inductive ClientEvent where
  | joinRoom (room_id : String)
  | leaveRoom
  | ev_room_joined (d : RoomJoinedData)
  | ev_new_message (m : Message)
  | ev_user_joined (d : UsersData)
  | ev_user_left (d : UsersData)
  | ev_user_typing (d : TypingData)
deriving DecidableEq

/-- Session-level state: which room (if any) currently has a mounted
`ChatRoom` with attached handlers, and that component state. -/
structure SessionState where
  attachedRoom : Option String
  chat : ChatState
deriving DecidableEq

/-- Before any room is joined no `ChatRoom` is mounted. -/
def initSession : SessionState := ⟨none, initChatState⟩

/-- One step of the session: mounting resets component state to the
initial hooks, unmounting detaches handlers, and a delivered socket
event is processed by the corresponding handler exactly when handlers
are attached (`socket.off` in the cleanup drops it otherwise). -/
def sessionStep (e : ClientEvent) (s : SessionState) : SessionState :=
  match e with
  | .joinRoom r => ⟨some r, initChatState⟩
  | .leaveRoom => ⟨none, s.chat⟩
  | .ev_room_joined d =>
      if s.attachedRoom.isSome then ⟨s.attachedRoom, onRoomJoined d s.chat⟩ else s
  | .ev_new_message m =>
      if s.attachedRoom.isSome then ⟨s.attachedRoom, onNewMessage m s.chat⟩ else s
  | .ev_user_joined d =>
      if s.attachedRoom.isSome then ⟨s.attachedRoom, onUserJoined d s.chat⟩ else s
  | .ev_user_left d =>
      if s.attachedRoom.isSome then ⟨s.attachedRoom, onUserLeft d s.chat⟩ else s
  | .ev_user_typing d =>
      if s.attachedRoom.isSome then ⟨s.attachedRoom, onUserTyping d s.chat⟩ else s

/-- Run a sequence of session events in delivery order (the transport is
strictly serialized). -/
def sessionRun (s : SessionState) : List ClientEvent → SessionState
  | [] => s
  | e :: rest => sessionRun (sessionStep e s) rest

/-! ### Outbound side: typing debounce, send, leave -/

/-- An event emitted on the socket by the outbound handlers. -/
inductive Emit where
  | typing (room_id : String) (is_typing : Bool)
  | send_message (room_id : String) (message : String)
  | leave_room (room_id : String)
deriving DecidableEq

/-- Mutable client state relevant to the outbound handlers of a mounted
`ChatRoom`: the multiset of live (not yet fired, not yet cleared)
timeouts as `(id, absolute expiry time in ms)` pairs, the value of
`typingTimeoutRef.current` (the id last stored there; the fired callback
never nulls it), a counter supplying fresh timeout ids, and the
`newMessage` input state. -/
structure OutState where
  pending : List (Nat × Nat)
  timeoutRef : Option Nat
  nextId : Nat
  newMessage : String
deriving DecidableEq

/-- On mount: no timeout exists, `typingTimeoutRef.current` is `null`
(line 213), the input is empty. -/
def initOutState : OutState := ⟨[], none, 0, ""⟩

/-- `clearTimeout(typingTimeoutRef.current)`: cancels the timeout with
the stored id if it is still live; a no-op on `null` or on an id that
already fired. -/
def clearStoredTimeout (ref : Option Nat) (pending : List (Nat × Nat)) :
    List (Nat × Nat) :=
  match ref with
  | some id => pending.filter (fun p => p.1 != id)
  | none => pending

/-- `handleTyping` (lines 286-309) at time `now` with input value
`value`: sets `newMessage`, emits `typing(room, true)` unconditionally,
clears the previously stored timeout and arms a fresh 1000ms timeout,
storing its id in the ref. -/
def handleTyping (room_id : String) (now : Nat) (value : String)
    (st : OutState) : OutState × List Emit :=
  ({ pending := clearStoredTimeout st.timeoutRef st.pending
                  ++ [(st.nextId, now + 1000)],
     timeoutRef := some st.nextId,
     nextId := st.nextId + 1,
     newMessage := value },
   [Emit.typing room_id true])

/-- `handleSendMessage` (lines 269-284): if the trimmed input is
non-empty, emit `send_message` with the trimmed text, clear the input,
and emit `typing(room, false)`; otherwise do nothing.  No timeout is
cleared in either branch. -/
def handleSendMessage (room_id : String) (st : OutState) :
    OutState × List Emit :=
  if jsTrim st.newMessage = "" then (st, [])
  else
    ({ st with newMessage := "" },
     [Emit.send_message room_id (jsTrim st.newMessage),
      Emit.typing room_id false])

/-- `handleLeaveRoom` (lines 311-316): emits `leave_room` and hands
control back to the parent; no timeout is cleared, and the effect
cleanup (lines 255-261) only calls `socket.off`, never `clearTimeout`. -/
def handleLeaveRoom (room_id : String) (st : OutState) :
    OutState × List Emit :=
  (st, [Emit.leave_room room_id])

/-- Fire every live timeout whose expiry has been reached by time `t`:
the callback (lines 302-307) emits `typing(room, false)`; the fired
timeout is no longer live, but `typingTimeoutRef.current` keeps the
stale id.  Emits are stamped with the expiry time. -/
def fireDue (room_id : String) (t : Nat) (st : OutState) :
    OutState × List (Nat × Emit) :=
  ({ st with pending := st.pending.filter (fun p => !(p.2 ≤ t)) },
   (st.pending.filter (fun p => p.2 ≤ t)).map
     (fun p => (p.2, Emit.typing room_id false)))

/-- A local user action inside the room: a keystroke in the input
(firing `handleTyping` with the new value), submitting the message form,
or clicking Leave Room. -/
inductive LocalAction where
  | keystroke (value : String)
  | send
  | leave
deriving DecidableEq

/-- Dispatch one local action at time `t` to its handler. -/
def localStep (room_id : String) (t : Nat) (a : LocalAction)
    (st : OutState) : OutState × List Emit :=
  match a with
  | .keystroke v => handleTyping room_id t v st
  | .send => handleSendMessage room_id st
  | .leave => handleLeaveRoom room_id st

/-- Run a time-ordered list of local actions from state `st`, collecting
the time-stamped emitted events.  Before each action every timeout due
by that time fires; after the last action every remaining live timeout
eventually fires. -/
def run (room_id : String) : OutState → List (Nat × LocalAction) →
    List (Nat × Emit)
  | st, [] => st.pending.map (fun p => (p.2, Emit.typing room_id false))
  | st, (t, a) :: rest =>
      (fireDue room_id t st).2
        ++ (localStep room_id t a (fireDue room_id t st).1).2.map
             (fun e => (t, e))
        ++ run room_id (localStep room_id t a (fireDue room_id t st).1).1 rest

/-- A sequence of keystrokes `(time, input value)` as a local-action
trace. -/
def keyTrace (ks : List (Nat × String)) : List (Nat × LocalAction) :=
  ks.map (fun p => (p.1, LocalAction.keystroke p.2))

/-- `goodTimesB e ts` holds when the first time in `ts` is strictly
before the currently pending expiry `e` and, recursively, each later
time is strictly before the expiry re-armed by its predecessor — i.e.
consecutive keystrokes are strictly less than 1000ms apart. -/
def goodTimesB : Nat → List Nat → Bool
  | _, [] => true
  | e, t :: rest => decide (t < e) && goodTimesB (t + 1000) rest

/-- Last element of a list of times, with default `d`. -/
def lastD (d : Nat) : List Nat → Nat
  | [] => d
  | t :: rest => lastD t rest

/-- Invariant of the outbound timer machinery: at most one timeout is
live, and any live timeout is the one whose id is stored in
`typingTimeoutRef`. -/
def OutInv (st : OutState) : Prop :=
  st.pending.length ≤ 1 ∧ ∀ p ∈ st.pending, st.timeoutRef = some p.1

/-! ### Identity capture and rendering -/

/-- `UsernameModal.handleSubmit` (lines 63-68): calls
`onSetUsername(username.trim())` exactly when the trimmed input is
non-empty (JS string truthiness); otherwise nothing happens.  The result
is the identity stored for the session, `none` meaning no-op. -/
def handleUsernameSubmit (username : String) : Option String :=
  if jsTrim username = "" then none else some (jsTrim username)

/-- Payload of the outbound `join_room` event. -/
structure JoinRoomPayload where
  username : String
  room_id : String
deriving DecidableEq

/-- The `join_room` emission of the mount effect (lines 218-221): the
session username and the room id, verbatim. -/
def joinRoomEmit (username : String) (room_id : String) : JoinRoomPayload :=
  ⟨username, room_id⟩

/-- Own-message classification in the render (lines 353-367):
`message.username === username`, exact string equality against the
session identity. -/
def isOwnMessage (m : Message) (username : String) : Bool :=
  m.username == username


/-! ## Claims -/

/-- Helper for the debounce characterization: running a keystroke
sequence from a state holding exactly the timeout armed by the previous
keystroke, where every keystroke falls strictly before the pending
expiry, emits one `typing(true)` per keystroke and a final
`typing(false)` at the last expiry. -/
theorem run_keys_chain (room_id : String) (ks : List (Nat × String)) :
    ∀ (i e n : Nat) (msg : String),
      goodTimesB e (ks.map Prod.fst) = true →
      run room_id ⟨[(i, e)], some i, n, msg⟩ (keyTrace ks)
        = ks.map (fun p => (p.1, Emit.typing room_id true))
          ++ [(lastD e (ks.map (fun p => p.1 + 1000)), Emit.typing room_id false)] := by
  induction ks with
  | nil =>
    intro i e n msg _
    simp [run, keyTrace, lastD]
  | cons hd tl ih =>
    intro i e n msg h
    obtain ⟨t, s⟩ := hd
    simp only [List.map_cons, goodTimesB, Bool.and_eq_true, decide_eq_true_eq] at h
    obtain ⟨h1, h2⟩ := h
    have hdec : decide (e ≤ t) = false := decide_eq_false (Nat.not_le.mpr h1)
    simp only [keyTrace, List.map_cons] at ih ⊢
    rw [run]
    simp only [fireDue, localStep, handleTyping, clearStoredTimeout,
      List.filter_cons, List.filter_nil, hdec, Bool.not_false, if_true,
      bne_self_eq_false, List.map_cons, List.map_nil, List.nil_append,
      List.cons_append, lastD, Bool.false_eq_true, if_false]
    rw [ih n (t + 1000) (n + 1) s h2]

/-- Claim C1, counterexample to the claim as stated: for keystrokes at
t = 0, 200, 400, 900ms with no message send, the client emits four
`typing(room, true)` events — one per keystroke — not exactly one. -/
theorem debounce_single_flight_counterexample :
    ((run "r" initOutState
        (keyTrace [(0, "a"), (200, "ab"), (400, "abc"), (900, "abcd")])).countP
      (fun p => p.2 == Emit.typing "r" true) = 4) ∧
    ¬ ((run "r" initOutState
        (keyTrace [(0, "a"), (200, "ab"), (400, "abc"), (900, "abcd")])).countP
      (fun p => p.2 == Emit.typing "r" true) = 1) := by
  constructor <;> decide

/-- Claim C1, amended: for every nonempty sequence of local keystrokes
in which each keystroke occurs strictly less than 1000ms after its
predecessor, and with no message send, the client emits
`typing(room, true)` at every keystroke (`handleTyping` has no
single-flight guard) and exactly one `typing(room, false)`, stamped
1000ms after the last keystroke. -/
theorem debounce_per_keystroke (room_id s0 : String) (t0 : Nat)
    (rest : List (Nat × String))
    (h : goodTimesB (t0 + 1000) (rest.map Prod.fst) = true) :
    run room_id initOutState (keyTrace ((t0, s0) :: rest))
      = ((t0, s0) :: rest).map (fun p => (p.1, Emit.typing room_id true))
        ++ [(lastD (t0 + 1000) (rest.map (fun p => p.1 + 1000)),
             Emit.typing room_id false)] := by
  simp only [keyTrace, List.map_cons]
  rw [run]
  simp only [initOutState, fireDue, localStep, handleTyping, clearStoredTimeout,
    List.filter_nil, List.map_nil, List.map_cons, List.nil_append, List.cons_append]
  rw [show (List.map (fun p => (p.1, LocalAction.keystroke p.2)) rest)
        = keyTrace rest from rfl]
  rw [run_keys_chain room_id rest 0 (t0 + 1000) 1 s0 h]

/-- Witness for the amended Claim C1 at the keystroke times of the
spec example. -/
theorem debounce_per_keystroke_witness :
    run "k" initOutState (keyTrace [(0, "a"), (200, "ab"), (400, "abc"), (900, "abcd")])
      = [(0, Emit.typing "k" true), (200, Emit.typing "k" true),
         (400, Emit.typing "k" true), (900, Emit.typing "k" true),
         (1900, Emit.typing "k" false)] :=
  debounce_per_keystroke "k" "a" 0 [(200, "ab"), (400, "abc"), (900, "abcd")] (by decide)

/-- Claim C2, counterexample to the claim as stated: keystroke at t = 0
then send at t = 500 yields `typing(false)` at t = 500 (from the send)
and again at t = 1000 (from the timer the send did not cancel): two
`typing(false)` events, the second emitted by the pending timer. -/
theorem send_does_not_cancel_timer_counterexample :
    run "r" initOutState [(0, LocalAction.keystroke "hi"), (500, LocalAction.send)] =
      [(0, Emit.typing "r" true), (500, Emit.send_message "r" "hi"),
       (500, Emit.typing "r" false), (1000, Emit.typing "r" false)] ∧
    (run "r" initOutState
        [(0, LocalAction.keystroke "hi"), (500, LocalAction.send)]).countP
      (fun p => p.2 == Emit.typing "r" false) = 2 := by
  constructor <;> decide

/-- Claim C2, amended: when a message is sent with non-blank input,
`handleSendMessage` immediately emits `send_message` followed by
`typing(room, false)`, but does not cancel the pending typing-stop
timer: the live timeout set and the stored ref are unchanged, and in a
concrete trace the timer later fires and emits a second
`typing(room, false)`. -/
theorem send_emits_stop_keeps_timer (room_id : String) (st : OutState)
    (h : jsTrim st.newMessage ≠ "") :
    (handleSendMessage room_id st).2
        = [Emit.send_message room_id (jsTrim st.newMessage),
           Emit.typing room_id false] ∧
    (handleSendMessage room_id st).1.pending = st.pending ∧
    (handleSendMessage room_id st).1.timeoutRef = st.timeoutRef ∧
    run "s" initOutState [(0, LocalAction.keystroke "yo"), (300, LocalAction.send)] =
      [(0, Emit.typing "s" true), (300, Emit.send_message "s" "yo"),
       (300, Emit.typing "s" false), (1000, Emit.typing "s" false)] := by
  refine ⟨?_, ?_, ?_, by decide⟩ <;> simp [handleSendMessage, h]

/-- Witness for the amended Claim C2 at a state with a live timeout and
input " hi ". -/
theorem send_emits_stop_keeps_timer_witness :
    (handleSendMessage "w" ⟨[(0, 1000)], some 0, 1, " hi "⟩).2
        = [Emit.send_message "w" (jsTrim " hi "), Emit.typing "w" false] ∧
    (handleSendMessage "w" ⟨[(0, 1000)], some 0, 1, " hi "⟩).1.pending = [(0, 1000)] ∧
    (handleSendMessage "w" ⟨[(0, 1000)], some 0, 1, " hi "⟩).1.timeoutRef = some 0 ∧
    run "s" initOutState [(0, LocalAction.keystroke "yo"), (300, LocalAction.send)] =
      [(0, Emit.typing "s" true), (300, Emit.send_message "s" "yo"),
       (300, Emit.typing "s" false), (1000, Emit.typing "s" false)] :=
  send_emits_stop_keeps_timer "w" ⟨[(0, 1000)], some 0, 1, " hi "⟩ (by decide)

/-- Helper for the timer invariant: under the invariant,
`clearTimeout(typingTimeoutRef.current)` cancels every live timeout. -/
theorem clearStored_of_inv (st : OutState) (h : OutInv st) :
    clearStoredTimeout st.timeoutRef st.pending = [] := by
  obtain ⟨hlen, href⟩ := h
  cases hpd : st.pending with
  | nil =>
    cases st.timeoutRef <;> simp [clearStoredTimeout]
  | cons p rest =>
    cases rest with
    | cons q tl =>
      rw [hpd] at hlen
      simp [List.length_cons] at hlen
    | nil =>
      have hr : st.timeoutRef = some p.1 := href p (by rw [hpd]; simp)
      simp [clearStoredTimeout, hr, hpd]

/-- Claim C3, counterexample to the claim as stated: keystroke at t = 0
then Leave Room at t = 400; neither `handleLeaveRoom` nor the effect
cleanup clears the timeout, so `typing(room, false)` for the left room
is still emitted at t = 1000, after the leave. -/
theorem leave_does_not_cancel_timer_counterexample :
    run "Q" initOutState [(0, LocalAction.keystroke "a"), (400, LocalAction.leave)] =
      [(0, Emit.typing "Q" true), (400, Emit.leave_room "Q"),
       (1000, Emit.typing "Q" false)] ∧
    (1000, Emit.typing "Q" false) ∈
      run "Q" initOutState [(0, LocalAction.keystroke "a"), (400, LocalAction.leave)] := by
  constructor <;> decide

/-- Claim C3, amended: at most one typing-stop timeout is live at any
time (the invariant `OutInv` is preserved by timer firing and by every
local action), but leaving the room does not cancel a pending timeout:
in a concrete trace the timer fires after the leave and emits
`typing(room, false)` for the left room. -/
theorem single_live_timer_invariant (room_id : String) (t : Nat) (a : LocalAction)
    (st : OutState) (h : OutInv st) :
    OutInv (fireDue room_id t st).1 ∧ OutInv (localStep room_id t a st).1 ∧
    run "R" initOutState [(0, LocalAction.keystroke "x"), (500, LocalAction.leave)] =
      [(0, Emit.typing "R" true), (500, Emit.leave_room "R"),
       (1000, Emit.typing "R" false)] := by
  obtain ⟨hlen, href⟩ := h
  refine ⟨⟨?_, ?_⟩, ?_, by decide⟩
  · exact le_trans (List.length_filter_le _ _) hlen
  · intro p hp
    exact href p (List.mem_of_mem_filter hp)
  · cases a with
    | keystroke v =>
      have hclr := clearStored_of_inv st ⟨hlen, href⟩
      constructor
      · simp [localStep, handleTyping, hclr]
      · intro p hp
        simp only [localStep, handleTyping, hclr, List.nil_append,
          List.mem_singleton] at hp
        subst hp
        rfl
    | send =>
      by_cases hm : jsTrim st.newMessage = ""
      · have hs : (localStep room_id t LocalAction.send st).1 = st := by
          simp [localStep, handleSendMessage, hm]
        rw [hs]
        exact ⟨hlen, href⟩
      · have hs : (localStep room_id t LocalAction.send st).1
            = { st with newMessage := "" } := by
          simp [localStep, handleSendMessage, hm]
        rw [hs]
        exact ⟨hlen, href⟩
    | leave =>
      exact ⟨hlen, href⟩

/-- Witness for the amended Claim C3 at the initial state. -/
theorem single_live_timer_invariant_witness :
    (OutInv (fireDue "w" 5 initOutState).1 ∧
     OutInv (localStep "w" 5 (LocalAction.keystroke "k") initOutState).1 ∧
     run "R" initOutState [(0, LocalAction.keystroke "x"), (500, LocalAction.leave)] =
       [(0, Emit.typing "R" true), (500, Emit.leave_room "R"),
        (1000, Emit.typing "R" false)]) :=
  single_live_timer_invariant "w" 5 (LocalAction.keystroke "k") initOutState
    ⟨by decide, fun p hp => nomatch hp⟩

/-- Claim C4, counterexample to the claim as stated: with Typing Set
["a", "b"], a repeated `user_typing` with `is_typing` for "a" yields
["b", "a"] — the existing position of "a" is not preserved. -/
theorem user_typing_position_counterexample :
    (onUserTyping ⟨"a", true⟩ ⟨[], [], ["a", "b"]⟩).typingUsers = ["b", "a"] ∧
    (["b", "a"] : List String) ≠ ["a", "b"] := by
  constructor
  · decide
  · decide

/-- Claim C4, amended: processing an inbound `user_typing` with
`is_typing` set is idempotent as an operation (processing it twice
equals processing it once) and appends an absent username at the end,
but a username already present is moved to the end of the ordered
sequence — the handler filters it out and re-appends it, so the
resulting last element is always that username, and membership is the
old membership plus the username. -/
theorem user_typing_insert_moves_to_end (st : ChatState) (d : TypingData)
    (hd : d.is_typing = true) :
    (onUserTyping d (onUserTyping d st)).typingUsers
        = (onUserTyping d st).typingUsers ∧
    (d.username ∉ st.typingUsers →
      (onUserTyping d st).typingUsers = st.typingUsers ++ [d.username]) ∧
    (onUserTyping d st).typingUsers.getLast? = some d.username ∧
    (∀ v, v ∈ (onUserTyping d st).typingUsers ↔
      v ∈ st.typingUsers ∨ v = d.username) := by
  refine ⟨?_, ?_, ?_, ?_⟩
  · simp [onUserTyping, hd, List.filter_append]
  · intro h
    simp only [onUserTyping, hd, if_true]
    congr 1
    apply List.filter_eq_self.mpr
    intro a ha
    simp only [bne_iff_ne, ne_eq]
    exact fun e => h (e ▸ ha)
  · simp [onUserTyping, hd]
  · intro v
    simp [onUserTyping, hd, List.mem_filter, or_comm]
    tauto

/-- Witness for the amended Claim C4 with Typing Set ["x"] and an
inbound start-typing signal for "u". -/
theorem user_typing_insert_moves_to_end_witness :
    (onUserTyping ⟨"u", true⟩ (onUserTyping ⟨"u", true⟩ ⟨[], [], ["x"]⟩)).typingUsers
        = (onUserTyping ⟨"u", true⟩ ⟨[], [], ["x"]⟩).typingUsers ∧
    ("u" ∉ (⟨[], [], ["x"]⟩ : ChatState).typingUsers →
      (onUserTyping ⟨"u", true⟩ ⟨[], [], ["x"]⟩).typingUsers = ["x"] ++ ["u"]) ∧
    (onUserTyping ⟨"u", true⟩ ⟨[], [], ["x"]⟩).typingUsers.getLast? = some "u" ∧
    (∀ v, v ∈ (onUserTyping ⟨"u", true⟩ ⟨[], [], ["x"]⟩).typingUsers ↔
      v ∈ (⟨[], [], ["x"]⟩ : ChatState).typingUsers ∨ v = "u") :=
  user_typing_insert_moves_to_end ⟨[], [], ["x"]⟩ ⟨"u", true⟩ rfl

/-- Claim C5, counterexample to the claim as stated: the client joins
R1, leaves, joins R2; a `new_message` tagged for R1 delivered after the
second join IS appended to the Message Stream shown for R2 — the
handler performs no room-id comparison. -/
theorem stale_message_counterexample :
    (sessionRun initSession
        [ClientEvent.joinRoom "R1", ClientEvent.leaveRoom, ClientEvent.joinRoom "R2",
         ClientEvent.ev_new_message ⟨"R1", "bob", "hi", 7⟩]).chat.messages
      = [⟨"R1", "bob", "hi", 7⟩] ∧
    (⟨"R1", "bob", "hi", 7⟩ : Message) ∈
      (sessionRun initSession
        [ClientEvent.joinRoom "R1", ClientEvent.leaveRoom, ClientEvent.joinRoom "R2",
         ClientEvent.ev_new_message ⟨"R1", "bob", "hi", 7⟩]).chat.messages := by
  refine ⟨by decide, ?_⟩
  decide

/-- Claim C5, amended: the `new_message` handler performs no room-id
comparison. While a `ChatRoom` is mounted, every delivered `new_message`
is appended to the active Message Stream regardless of the room it is
tagged for; an event is dropped only when it arrives while no handlers
are attached (between a leave and the next join). -/
theorem new_message_no_room_comparison (s : SessionState) (m : Message) (r : String) :
    (s.attachedRoom = none → sessionStep (ClientEvent.ev_new_message m) s = s) ∧
    (s.attachedRoom = some r →
      (sessionStep (ClientEvent.ev_new_message m) s).chat.messages
        = s.chat.messages ++ [m]) := by
  constructor
  · intro h
    simp [sessionStep, h]
  · intro h
    simp [sessionStep, h, onNewMessage]

/-- Witness for the amended Claim C5: an R1-tagged message is dropped
while detached and appended while R2 is mounted. -/
theorem new_message_no_room_comparison_witness :
    sessionStep (ClientEvent.ev_new_message ⟨"R1", "u", "m", 1⟩)
        ⟨none, initChatState⟩ = ⟨none, initChatState⟩ ∧
    (sessionStep (ClientEvent.ev_new_message ⟨"R1", "u", "m", 1⟩)
        ⟨some "R2", initChatState⟩).chat.messages
      = initChatState.messages ++ [⟨"R1", "u", "m", 1⟩] :=
  ⟨(new_message_no_room_comparison ⟨none, initChatState⟩ ⟨"R1", "u", "m", 1⟩ "R2").1 rfl,
   (new_message_no_room_comparison ⟨some "R2", initChatState⟩ ⟨"R1", "u", "m", 1⟩ "R2").2 rfl⟩

/-- Claim C6: for every prior snapshot and every `room_joined`,
`user_joined` or `user_left` event carrying a `users` list, the
resulting Membership Snapshot equals exactly that list — wholesale
replacement, no diffing; in particular snapshot ["a", "b"] followed by
`user_left` with users = ["a"] yields exactly ["a"]. -/
theorem membership_wholesale_replacement (st st2 st3 : ChatState)
    (users : List String) (msgs : Option (List Message)) :
    (onRoomJoined ⟨msgs, some users⟩ st).onlineUsers = users ∧
    (onUserJoined ⟨some users⟩ st2).onlineUsers = users ∧
    (onUserLeft ⟨some users⟩ st3).onlineUsers = users ∧
    (onUserLeft ⟨some ["a"]⟩ ⟨[], ["a", "b"], []⟩).onlineUsers = ["a"] := by
  refine ⟨rfl, rfl, rfl, rfl⟩

/-- Claim C7: for every `room_joined`, `user_joined` or `user_left`
event whose `users` field (or, for `room_joined`, whose `messages`
field) is absent, the corresponding state is set to the empty list; the
handlers are total functions, so no error is raised or propagated. -/
theorem missing_fields_default_empty (st st2 st3 : ChatState) :
    (onRoomJoined ⟨none, none⟩ st).messages = [] ∧
    (onRoomJoined ⟨none, none⟩ st).onlineUsers = [] ∧
    (onUserJoined ⟨none⟩ st2).onlineUsers = [] ∧
    (onUserLeft ⟨none⟩ st3).onlineUsers = [] := by
  refine ⟨rfl, rfl, rfl, rfl⟩

/-- Claim C8: a local input that trims to empty is a complete no-op:
the username submit produces no identity (no call to `onSetUsername`),
and `handleSendMessage` leaves the state unchanged and emits no event. -/
theorem empty_input_noop (input room_id : String) (st : OutState)
    (h1 : jsTrim input = "") (h2 : jsTrim st.newMessage = "") :
    handleUsernameSubmit input = none ∧
    handleSendMessage room_id st = (st, []) := by
  constructor
  · simp [handleUsernameSubmit, h1]
  · simp [handleSendMessage, h2]

/-- Witness for Claim C8 on whitespace-only inputs. -/
theorem empty_input_noop_witness :
    handleUsernameSubmit "   " = none ∧
    handleSendMessage "r" ⟨[], none, 0, " "⟩ = (⟨[], none, 0, " "⟩, []) :=
  empty_input_noop "   " "r" ⟨[], none, 0, " "⟩ (by decide) (by decide)

/-- Claim C9: a message is classified as own exactly when
`message.username` is string-equal to the local identity; for identity
"alice" a message from "alice" is own and a message from "alice2" is
not, despite the prefix match. -/
theorem own_message_exact_equality (m : Message) (username : String) :
    isOwnMessage m username = decide (m.username = username) ∧
    isOwnMessage ⟨"r", "alice", "hi", 0⟩ "alice" = true ∧
    isOwnMessage ⟨"r", "alice2", "hi", 0⟩ "alice" = false := by
  refine ⟨?_, by decide, by decide⟩
  by_cases h : m.username = username <;> simp [isOwnMessage, h]

/-- Claim C10: the stored session identity is the whitespace-trimmed
form of the entered string, the `join_room` payload carries exactly that
trimmed string, and own-message classification compares against it;
entering " alice " produces the identity "alice". -/
theorem identity_is_trimmed (input room_id : String) (h : jsTrim input ≠ "") :
    handleUsernameSubmit input = some (jsTrim input) ∧
    (joinRoomEmit (jsTrim input) room_id).username = jsTrim input ∧
    (∀ m : Message, isOwnMessage m (jsTrim input) = (m.username == jsTrim input)) ∧
    jsTrim " alice " = "alice" := by
  refine ⟨?_, rfl, fun m => rfl, by decide⟩
  simp [handleUsernameSubmit, h]

/-- Witness for Claim C10 at the input " alice ". -/
theorem identity_is_trimmed_witness :
    handleUsernameSubmit " alice " = some (jsTrim " alice ") ∧
    (joinRoomEmit (jsTrim " alice ") "r1").username = jsTrim " alice " ∧
    (∀ m : Message, isOwnMessage m (jsTrim " alice ") = (m.username == jsTrim " alice ")) ∧
    jsTrim " alice " = "alice" :=
  identity_is_trimmed " alice " "r1" (by decide)

end ChatApp
